import Mathlib

/-!
Verification development for `src/main.py` of the robot debug logger daemon.

The file is a shallow embedding of the script's components:
the button-mapping dictionary and the event monitor, the action-log file
operations (append / dashboard query / clear), the Datadog uploader, the
video recorder loop, and the coordinator in `main()`.  File contents are
modelled as `Option (List String)` (`none` = the file does not exist, lines
as Python's file iteration yields them, trailing newline included), machine
integers as `Nat`, Python exceptions as `Except`, and the environment
(network, subprocess, device) as explicit parameters.
-/

namespace RobotLogger

/-! ### Button mappings (src/main.py lines 19-28) -/

/-- Python dict insertion semantics: binding a key that is already present
overwrites the existing entry in place; a new key is appended. -/
def dictInsert (m : List (Nat × String)) (kv : Nat × String) : List (Nat × String) :=
  if m.any (fun p => p.1 == kv.1) then
    m.map (fun p => if p.1 == kv.1 then kv else p)
  else
    m ++ [kv]

/-- The `BUTTON_MAPPINGS` dict literal of the source.  The last two entries
are both written with key `000`, which is the integer `0` in Python, so the
second binding (`"clear_log_history"`) silently overwrites the first
(`"display_dashboard"`). -/
def BUTTON_MAPPINGS : List (Nat × String) :=
  [(2, "intersection"), (3, "lane_departure"), (4, "slow_down"),
   (5, "intervention"), (6, "other"),
   (0, "display_dashboard"), (0, "clear_log_history")].foldl dictInsert []

/-- Dict lookup `BUTTON_MAPPINGS[code]` (also `code in BUTTON_MAPPINGS`
via `Option.isSome`). -/
def buttonLookup (code : Nat) : Option String :=
  (BUTTON_MAPPINGS.find? (fun p => p.1 == code)).map (fun p => p.2)

/-- evdev `ecodes.EV_KEY`. -/
def EV_KEY : Nat := 1

/-- evdev `KeyEvent.key_down` (0 = up, 1 = down, 2 = hold/repeat). -/
def KEY_DOWN : Nat := 1

/-- A decoded input event as the monitor sees it: `event.type`,
`event.code`, and the key state of `categorize(event)` (which equals
`event.value` for key events). -/
structure InputEvent where
  typ : Nat
  code : Nat
  value : Nat
deriving DecidableEq, Repr

/-- The three dispatch targets of the monitor body. -/
inductive MonitorAction where
  | dashboard
  | clearLog
  | logAction (label : String)
deriving DecidableEq, Repr

/-- The body of the event loop of `monitor_robot_actions`
(src/main.py lines 160-171): only `EV_KEY` events whose code is in
`BUTTON_MAPPINGS` and whose key state is `key_down` are dispatched;
the mapped label selects the dashboard, the clear, or an append. -/
def eventActionOf (e : InputEvent) : Option MonitorAction :=
  if e.typ == EV_KEY then
    match buttonLookup e.code with
    | some actionType =>
      if e.value == KEY_DOWN then
        if actionType == "display_dashboard" then some .dashboard
        else if actionType == "clear_log_history" then some .clearLog
        else some (.logAction actionType)
      else none
    | none => none
  else none

/-- Is this dispatch an append to the action log (`log_action`)? -/
def isAppendAction : Option MonitorAction → Bool
  | some (.logAction _) => true
  | _ => false

/-- Is this dispatch the dashboard display? -/
def isDashboardAction : Option MonitorAction → Bool
  | some .dashboard => true
  | _ => false

/-- Number of records appended to the action log over an event sequence:
each `log_action` call writes exactly one line. -/
def appendedRecordCount (evs : List InputEvent) : Nat :=
  evs.countP (fun e => isAppendAction (eventActionOf e))

/-- The two reserved control labels of the specification. -/
def controlLabels : List String := ["display_dashboard", "clear_log_history"]

/-- Predicate written from the specification's words: a key-type event,
down-edge, whose code is mapped and whose mapped label is not one of the two
reserved control labels. -/
def isNonControlMappedPressSpec (e : InputEvent) : Bool :=
  e.typ == EV_KEY && e.value == KEY_DOWN &&
    (match buttonLookup e.code with
     | some l => !(controlLabels.contains l)
     | none => false)

theorem BUTTON_MAPPINGS_eval :
    BUTTON_MAPPINGS =
      [(2, "intersection"), (3, "lane_departure"), (4, "slow_down"),
       (5, "intervention"), (6, "other"), (0, "clear_log_history")] := by
  rfl

theorem buttonLookup_eq : ∀ c : Nat,
    buttonLookup c =
      if c = 2 then some "intersection"
      else if c = 3 then some "lane_departure"
      else if c = 4 then some "slow_down"
      else if c = 5 then some "intervention"
      else if c = 6 then some "other"
      else if c = 0 then some "clear_log_history"
      else none
  | 0 => rfl
  | 1 => rfl
  | 2 => rfl
  | 3 => rfl
  | 4 => rfl
  | 5 => rfl
  | 6 => rfl
  | (_ + 7) => rfl

theorem buttonLookup_not_dashboard (c : Nat) (l : String)
    (h : buttonLookup c = some l) : (l == "display_dashboard") = false := by
  rw [buttonLookup_eq] at h
  split_ifs at h <;>
    first
    | (injection h with h; subst h; decide)
    | exact absurd h (by simp)

theorem isAppend_eq_spec (e : InputEvent) :
    isAppendAction (eventActionOf e) = isNonControlMappedPressSpec e := by
  unfold eventActionOf isNonControlMappedPressSpec
  cases hbl : buttonLookup e.code with
  | none =>
    cases ht : (e.typ == EV_KEY) <;> simp [isAppendAction]
  | some l =>
    cases ht : (e.typ == EV_KEY) <;>
      cases hv : (e.value == KEY_DOWN) <;>
        simp [isAppendAction, controlLabels, List.contains] <;>
          by_cases hd : (l == "display_dashboard") = true <;>
            by_cases hc : (l == "clear_log_history") = true <;>
              simp_all [isAppendAction]

theorem eventAction_isSome (e : InputEvent) :
    (eventActionOf e).isSome =
      (e.typ == EV_KEY && (buttonLookup e.code).isSome && e.value == KEY_DOWN) := by
  unfold eventActionOf
  cases hbl : buttonLookup e.code with
  | none => cases ht : (e.typ == EV_KEY) <;> simp
  | some l =>
    cases ht : (e.typ == EV_KEY) <;> cases hv : (e.value == KEY_DOWN) <;>
      simp_all <;> split_ifs <;> simp

/-! ### Action log file: dashboard query and clear (src/main.py lines 41-77)

A file line is kept exactly as Python's file iteration yields it (with its
trailing `"\n"` when one is present).  `display_dashboard` takes the leading
timestamp `line[1:20]`, parses it with
`datetime.strptime(_, "%Y-%m-%d %H:%M:%S")`, and prints the stripped line
when the timestamp is at least `now - 7 days`.  Timestamps are encoded as a
count of seconds on the proleptic Gregorian calendar so that `datetime`
comparison and `timedelta` subtraction become `Nat` comparison and
subtraction. -/

def digitVal (c : Char) : Nat := c.toNat - 48

/-- Python slicing `s[a:b]` on code points. -/
def pySlice (s : String) (a b : Nat) : String :=
  String.mk ((s.toList.drop a).take (b - a))

/-- The characters Python's regex `\s` matches (ASCII range). -/
def isPySpace (c : Char) : Bool :=
  c == ' ' || c == '\t' || c == '\n' || c == '\r' || c == '\x0b' || c == '\x0c'

/-- Python `str.strip()` (both-ends whitespace removal). -/
def pyStrip (s : String) : String :=
  String.mk ((s.toList.dropWhile isPySpace).reverse.dropWhile isPySpace |>.reverse)

structure PyDateTime where
  year : Nat
  month : Nat
  day : Nat
  hour : Nat
  minute : Nat
  second : Nat
deriving DecidableEq, Repr

def isLeapYear (y : Nat) : Bool :=
  (y % 4 == 0 && y % 100 != 0) || y % 400 == 0

def daysInMonth (y m : Nat) : Nat :=
  if m == 2 then (if isLeapYear y then 29 else 28)
  else if m == 4 || m == 6 || m == 9 || m == 11 then 30
  else 31

/-- The validation the `datetime` constructor performs after the format
regex has matched (`MINYEAR = 1`, `MAXYEAR = 9999`, calendar-valid day,
`second ≤ 59`); a failure raises `ValueError`, modelled as `none`. -/
def mkPyDateTime (y mo d h mi s : Nat) : Option PyDateTime :=
  if 1 ≤ y && y ≤ 9999 && 1 ≤ mo && mo ≤ 12 && 1 ≤ d && d ≤ daysInMonth y mo
      && h ≤ 23 && mi ≤ 59 && s ≤ 59 then
    some ⟨y, mo, d, h, mi, s⟩
  else
    none

/-- One literal character of the format string. -/
def lit (ch : Char) : List Char → Option (List Char)
  | c :: rest => if c = ch then some rest else none
  | [] => none

/-- The whitespace of the format string: CPython's `_strptime` replaces it
with the regex `\s+`, one or more whitespace characters. -/
def skipSpaces1 : List Char → Option (List Char)
  | c :: rest => if isPySpace c then some (rest.dropWhile isPySpace) else none
  | [] => none

/-- A numeric field of `_strptime`'s regexes (`%m`, `%d`, `%H`, `%M`, `%S`):
the two-digit form is preferred, with regex backtracking to the one-digit
form when the remainder of the pattern fails; `k` is the continuation that
matches the remainder. -/
def numField (validTwo validOne : Nat → Bool) (cs : List Char)
    (k : Nat → List Char → Option PyDateTime) : Option PyDateTime :=
  (match cs with
   | a :: b :: rest =>
     if a.isDigit && b.isDigit && validTwo (10 * digitVal a + digitVal b) then
       k (10 * digitVal a + digitVal b) rest
     else none
   | _ => none) <|>
  (match cs with
   | a :: rest =>
     if a.isDigit && validOne (digitVal a) then k (digitVal a) rest
     else none
   | _ => none)

/-- The part of the `"%Y-%m-%d %H:%M:%S"` pattern after the four year
digits: `%m`/`%d` have regexes `1[0-2]|0[1-9]|[1-9]` and
`3[01]|[12]\d|0[1-9]|[1-9]`; `%H`/`%M`/`%S` have `2[0-3]|[0-1]\d|\d`,
`[0-5]\d|\d` and `6[0-1]|[0-5]\d|\d`; the whole string must be consumed
(`unconverted data remains` otherwise), and the matched field values must
construct a valid `datetime`. -/
def strptimeAfterYear (y : Nat) (r0 : List Char) : Option PyDateTime :=
  match lit '-' r0 with
  | none => none
  | some r1 =>
    numField (fun v => 1 ≤ v && v ≤ 12) (fun v => 1 ≤ v && v ≤ 9) r1 (fun mo r2 =>
      match lit '-' r2 with
      | none => none
      | some r3 =>
        numField (fun v => 1 ≤ v && v ≤ 31) (fun v => 1 ≤ v && v ≤ 9) r3 (fun d r4 =>
          match skipSpaces1 r4 with
          | none => none
          | some r5 =>
            numField (fun v => v ≤ 23) (fun v => v ≤ 9) r5 (fun h r6 =>
              match lit ':' r6 with
              | none => none
              | some r7 =>
                numField (fun v => v ≤ 59) (fun v => v ≤ 9) r7 (fun mi r8 =>
                  match lit ':' r8 with
                  | none => none
                  | some r9 =>
                    numField (fun v => v ≤ 61) (fun v => v ≤ 9) r9 (fun s r10 =>
                      match r10 with
                      | [] => mkPyDateTime y mo d h mi s
                      | _ :: _ => none)))))

/-- `datetime.strptime(str, "%Y-%m-%d %H:%M:%S")`: `%Y` is exactly four
digits, then the rest of the pattern via `strptimeAfterYear`. -/
def strptime_YmdHMS (str : String) : Option PyDateTime :=
  match str.toList with
  | y1 :: y2 :: y3 :: y4 :: rest =>
    if y1.isDigit && y2.isDigit && y3.isDigit && y4.isDigit then
      strptimeAfterYear
        (1000 * digitVal y1 + 100 * digitVal y2 + 10 * digitVal y3 + digitVal y4) rest
    else none
  | _ => none

/-- Days since 0000-03-01 on the proleptic Gregorian calendar
(days-from-civil), for years `1 ≤ y ≤ 9999`. -/
def daysFromCivil (y m d : Nat) : Nat :=
  let yAdj := if m ≤ 2 then y - 1 else y
  let era := yAdj / 400
  let yoe := yAdj % 400
  let mp := (m + 9) % 12
  let doy := (153 * mp + 2) / 5 + d - 1
  let doe := yoe * 365 + yoe / 4 - yoe / 100 + doy
  era * 146097 + doe

/-- A `datetime` as a count of seconds; the encoding is strictly monotone in
`datetime` order, so `datetime` comparison and `timedelta` subtraction become
`Nat` comparison and subtraction. -/
def dtToSecs (dt : PyDateTime) : Nat :=
  daysFromCivil dt.year dt.month dt.day * 86400
    + dt.hour * 3600 + dt.minute * 60 + dt.second

/-- Lines 54-55 of the source: `timestamp_str = line[1:20]` followed by
`datetime.strptime(timestamp_str, "%Y-%m-%d %H:%M:%S")`; a `ValueError`
(or the unreachable `IndexError`) is `none`. -/
def parse_leading_timestamp (line : String) : Option Nat :=
  (strptime_YmdHMS (pySlice line 1 20)).map dtToSecs

/-- The `for line in f` scan of `display_dashboard`: a parse failure is
silently skipped, a parsed timestamp at least `seven_days_ago` prints the
stripped line.  Returns the printed lines in print order. -/
def scan_log_lines (sevenDaysAgo : Nat) : List String → List String
  | [] => []
  | line :: rest =>
    match parse_leading_timestamp line with
    | some t =>
      if sevenDaysAgo ≤ t then pyStrip line :: scan_log_lines sevenDaysAgo rest
      else scan_log_lines sevenDaysAgo rest
    | none => scan_log_lines sevenDaysAgo rest

/-- `display_dashboard` (src/main.py lines 41-65): no file yields no action
lines (only the header and footer are printed); otherwise the file is
scanned with the cutoff `datetime.now() - timedelta(days=7)`.  `now` is the
current instant in the seconds encoding; the result is the list of action
lines printed. -/
def display_dashboard (now : Nat) (logFile : Option (List String)) : List String :=
  match logFile with
  | none => []
  | some lines => scan_log_lines (now - 7 * 24 * 3600) lines

/-- Predicate written from the code's filter condition, for stating the
query characterization: the leading timestamp parses and is at least the
cutoff. -/
def keepsLine (sevenDaysAgo : Nat) (line : String) : Bool :=
  match parse_leading_timestamp line with
  | some t => decide (sevenDaysAgo ≤ t)
  | none => false

/-- `clear_action_log` (src/main.py lines 67-77): `os.remove` when the file
exists, else the no-op branch.  Returns the new file state and whether
`os.remove` was invoked. -/
def clear_action_log : Option (List String) → Option (List String) × Bool
  | some _ => (none, true)
  | none => (none, false)

/-! ### Datadog uploader (src/main.py lines 80-118) -/

/-- The one exception the source can raise between the `os.path.exists`
check and the `requests.post` call: `open`/`read` of the log file failing
(`IOError`, or `FileNotFoundError` when the file was removed concurrently
after the existence check). -/
inductive UploadExc where
  | readFailure
deriving DecidableEq, Repr

/-- Effects the uploader body can perform after its two guard checks. -/
inductive UploadStep where
  | readLog
  | httpPost
deriving DecidableEq, Repr

/-- The environment one call of `upload_logs_to_datadog` runs in:
the contents of `/sys/class/net/wlan0/operstate` (`none` = the file is
absent, raising the caught `FileNotFoundError`), whether the log file
exists, what reading it yields, and what `requests.post` yields
(`Except.error` = a raised requests exception, `Except.ok` = a status
code). -/
structure UploadEnv where
  operstate : Option String
  logExists : Bool
  readResult : Except UploadExc String
  postResult : Except Unit Nat

/-- `is_wifi_connected` (src/main.py lines 80-88): read
`/sys/class/net/wlan0/operstate`, strip, compare with `"up"`;
`FileNotFoundError` is caught and yields `False`. -/
def is_wifi_connected (operstate : Option String) : Bool :=
  match operstate with
  | some s => pyStrip s == "up"
  | none => false

/-- `upload_logs_to_datadog` (src/main.py lines 90-108): skip when WiFi is
down or the log file does not exist; otherwise read the whole log (the
`open`/`read` is outside any `try`, so its failure propagates) and POST it
(the `requests.post` is inside `try`, so its failure is caught and
reported).  Returns the effect list, or the escaping exception. -/
def upload_logs_to_datadog (env : UploadEnv) : Except UploadExc (List UploadStep) :=
  if !is_wifi_connected env.operstate then .ok []
  else if !env.logExists then .ok []
  else
    match env.readResult with
    | .error e => .error e
    | .ok _logContent =>
      match env.postResult with
      | .error _ => .ok [.readLog, .httpPost]
      | .ok _status => .ok [.readLog, .httpPost]

/-- `periodic_datadog_uploader` (src/main.py lines 110-118), one environment
per cycle: the loop body has no exception handler, so an exception raised by
a cycle terminates the loop (the thread dies).  Returns the number of
completed cycles, or the escaping exception. -/
def periodic_datadog_uploader : List UploadEnv → Except UploadExc Nat
  | [] => .ok 0
  | env :: rest =>
    match upload_logs_to_datadog env with
    | .error e => .error e
    | .ok _ =>
      match periodic_datadog_uploader rest with
      | .error e => .error e
      | .ok n => .ok (n + 1)

/-! ### Background-loop sleep granularity (src/main.py lines 115-118, 146) -/

/-- `time.sleep(10)` in the uploader's wait loop. -/
def uploaderSleepChunkSeconds : Nat := 10

/-- `for _ in range(60)` in the uploader's wait loop. -/
def uploaderSleepChunkCount : Nat := 60

/-- `time.sleep(1)` in the video poll loop. -/
def videoPollSleepSeconds : Nat := 1

/-- The uploader's inter-cycle wait loop, as the list of `time.sleep`
durations it executes: at iteration `i` the loop first checks
`stop_event.is_set()` (reading `stop i`) and breaks, else sleeps 10
seconds. -/
def uploaderSleepCallsAux (stop : Nat → Bool) : Nat → Nat → List Nat
  | _, 0 => []
  | i, n + 1 =>
    if stop i then []
    else uploaderSleepChunkSeconds :: uploaderSleepCallsAux stop (i + 1) n

/-- The sleep calls of one full `for _ in range(60)` wait. -/
def uploaderSleepCalls (stop : Nat → Bool) : List Nat :=
  uploaderSleepCallsAux stop 0 uploaderSleepChunkCount

/-! ### Video recorder (src/main.py lines 121-147) -/

/-- The observable operations of the video recorder loop. -/
inductive VideoOp where
  | sleepSec (seconds : Nat)
  | terminateProc
  | waitProc
  | pruneOldVideos
deriving DecidableEq, Repr

/-- The inner poll loop of `video_recorder_loop` (lines 142-146):
`while proc.poll() is None: if stop_event.is_set(): proc.terminate();
break; time.sleep(1)`.  `running i` is whether `proc.poll()` is still
`None` at the `i`-th check, `stop i` the shutdown flag then; the fuel
bounds the observed window.  Note the stop branch issues `terminateProc`
and exits at once — the source has no `proc.wait()`. -/
def video_wait_for_proc (running stop : Nat → Bool) : Nat → Nat → List VideoOp
  | _, 0 => []
  | i, n + 1 =>
    if running i then
      if stop i then [VideoOp.terminateProc]
      else VideoOp.sleepSec videoPollSleepSeconds :: video_wait_for_proc running stop (i + 1) n
    else []

/-- The exception `subprocess.Popen` raises when the `libcamera-vid`
executable cannot be spawned. -/
inductive SpawnExc where
  | fileNotFound
deriving DecidableEq, Repr

/-- The environment of one iteration of `video_recorder_loop`. -/
structure VideoIterEnv where
  spawnResult : Except SpawnExc Unit
  running : Nat → Bool
  stop : Nat → Bool

/-- One iteration of `video_recorder_loop` (lines 132-147): `Popen` is
outside any `try`, so a spawn failure propagates; otherwise poll the
subprocess, then `delete_old_videos()`. -/
def video_iteration (fuel : Nat) (env : VideoIterEnv) : Except SpawnExc (List VideoOp) :=
  match env.spawnResult with
  | .error e => .error e
  | .ok _ =>
    .ok (video_wait_for_proc env.running env.stop 0 fuel ++ [VideoOp.pruneOldVideos])

/-- The `while not stop_event.is_set()` recorder loop over a list of
iteration environments: an exception from an iteration escapes the loop
(the thread dies).  Returns the concatenated operation trace, or the
escaping exception. -/
def video_recorder_loop (fuel : Nat) : List VideoIterEnv → Except SpawnExc (List VideoOp)
  | [] => .ok []
  | env :: rest =>
    match video_iteration fuel env with
    | .error e => .error e
    | .ok ops =>
      match video_recorder_loop fuel rest with
      | .error e => .error e
      | .ok more => .ok (ops ++ more)

/-! ### Coordinator (src/main.py lines 150-200) -/

/-- How the foreground `monitor_robot_actions` call comes to an end:
a device-open failure (`FileNotFoundError` / `PermissionError`), another
exception, the event stream ending, or the operator's Ctrl+C
(`KeyboardInterrupt`). -/
inductive MonitorOutcome where
  | deviceNotFound
  | permissionDenied
  | otherException
  | streamEnded
  | keyboardInterrupt
deriving DecidableEq, Repr

/-- Whether `monitor_robot_actions` lets the outcome escape to `main()`:
its handlers catch `FileNotFoundError`, `PermissionError` and `Exception`
(printing a message and returning normally); `KeyboardInterrupt` derives
from `BaseException`, not `Exception`, so it alone propagates. -/
def monitor_robot_actions_escapes : MonitorOutcome → Bool
  | .keyboardInterrupt => true
  | _ => false

/-- What `main()` does on the shutdown path. -/
structure CoordinatorExit where
  stopEventSet : Bool
  videoThreadJoined : Bool
  datadogThreadJoined : Bool
deriving DecidableEq, Repr

/-- `main()` (src/main.py lines 180-200): only the
`except KeyboardInterrupt` handler sets `stop_event` and joins the two
background threads; when `monitor_robot_actions` returns normally (as it
does after a fatal device error, which it catches itself), `main()` falls
through without setting the flag or joining. -/
def main_shutdown (outcome : MonitorOutcome) : CoordinatorExit :=
  if monitor_robot_actions_escapes outcome then
    ⟨true, true, true⟩
  else
    ⟨false, false, false⟩

/-! ### Helper lemmas -/

theorem scan_eq_filter (k : Nat) (lines : List String) :
    scan_log_lines k lines = (lines.filter (keepsLine k)).map pyStrip := by
  induction lines with
  | nil => rfl
  | cons l ls ih =>
    unfold scan_log_lines
    cases hp : parse_leading_timestamp l with
    | none => simpa [List.filter_cons, keepsLine, hp] using ih
    | some t =>
      by_cases hk : k ≤ t <;> simp [List.filter_cons, keepsLine, hp, hk, ih]

theorem video_wait_no_wait (r s : Nat → Bool) :
    ∀ f i, (video_wait_for_proc r s i f).contains VideoOp.waitProc = false := by
  intro f
  induction f with
  | zero => intro i; rfl
  | succ n ih =>
    intro i
    unfold video_wait_for_proc
    by_cases hr : r i = true
    · by_cases hs : s i = true
      · simp [hr, hs]
      · have ih' : VideoOp.waitProc ∉ video_wait_for_proc r s (i + 1) n := by
          simpa using ih (i + 1)
        simp [hr, hs, ih']
    · simp [hr]

/-- Is a video operation compatible with one-second poll granularity
(non-sleep operations vacuously so)? -/
def videoSleepOpOk : VideoOp → Bool
  | .sleepSec n => n == videoPollSleepSeconds
  | _ => true

theorem video_wait_sleep_granularity (r s : Nat → Bool) :
    ∀ f i, (video_wait_for_proc r s i f).all videoSleepOpOk = true := by
  intro f
  induction f with
  | zero => intro i; rfl
  | succ n ih =>
    intro i
    unfold video_wait_for_proc
    by_cases hr : r i = true
    · by_cases hs : s i = true
      · simp [hr, hs, videoSleepOpOk]
      · simp [hr, hs, ih, videoSleepOpOk]
    · simp [hr]

theorem uploaderSleepCallsAux_all_ten (stop : Nat → Bool) :
    ∀ n i,
      (uploaderSleepCallsAux stop i n).all (fun d => d == uploaderSleepChunkSeconds)
        = true := by
  intro n
  induction n with
  | zero => intro i; rfl
  | succ n ih =>
    intro i
    unfold uploaderSleepCallsAux
    by_cases hs : stop i = true <;> simp [hs, ih]

theorem uploaderSleepCallsAux_len (stop : Nat → Bool) (j : Nat) (hj : stop j = true) :
    ∀ n i, i ≤ j → (uploaderSleepCallsAux stop i n).length ≤ j - i := by
  intro n
  induction n with
  | zero => intro i _; simp [uploaderSleepCallsAux]
  | succ n ih =>
    intro i hij
    unfold uploaderSleepCallsAux
    by_cases hs : stop i = true
    · simp [hs]
    · have hne : i ≠ j := by
        intro h
        rw [h, hj] at hs
        exact hs rfl
      have h2 := ih (i + 1) (by omega)
      rw [if_neg hs]
      simp only [List.length_cons]
      omega

/-! ### The claims -/

/-- **C1** (code defect): on a fatal device error, `monitor_robot_actions`
catches the exception and returns normally, so `main()` never sets
`stop_event` and never joins the background threads — only the
`KeyboardInterrupt` path shuts down cleanly.  The claimed guarantee (signal
set, both tasks joined, none left running) fails on the device-error
paths. -/
theorem spec_C1_device_error_no_shutdown :
    main_shutdown .deviceNotFound = ⟨false, false, false⟩ ∧
    main_shutdown .permissionDenied = ⟨false, false, false⟩ ∧
    main_shutdown .keyboardInterrupt = ⟨true, true, true⟩ :=
  ⟨rfl, rfl, rfl⟩

/-- **C2** (code defect): when the shutdown signal is observed while the
capture subprocess runs, the poll loop issues `proc.terminate()` and breaks
at once; no `proc.wait()` exists anywhere in the loop, so the rotator
proceeds without waiting for the subprocess to exit. -/
theorem spec_C2_terminate_without_wait :
    video_wait_for_proc (fun _ => true) (fun _ => true) 0 5 = [VideoOp.terminateProc] ∧
    (∀ r s : Nat → Bool, ∀ f i,
      (video_wait_for_proc r s i f).contains VideoOp.waitProc = false) :=
  ⟨rfl, fun r s => video_wait_no_wait r s⟩

/-- **C3** (code defect): a failure of the log-file read (after the
existence check) is not caught — only the `requests.post` call sits inside
a `try` — so the exception escapes `upload_logs_to_datadog` and terminates
`periodic_datadog_uploader`: the second cycle below is never reached.  A
post failure, by contrast, is caught. -/
theorem spec_C3_read_failure_kills_uploader :
    upload_logs_to_datadog ⟨some "up", true, .error .readFailure, .ok 202⟩
      = .error .readFailure ∧
    periodic_datadog_uploader
      [⟨some "up", true, .error .readFailure, .ok 202⟩,
       ⟨some "up", true, .ok "[2026-10-05 12:00:00] Action Logged: slow_down\n", .ok 202⟩]
      = .error .readFailure ∧
    (∀ post : Except Unit Nat,
      upload_logs_to_datadog ⟨some "up", true, .ok "log", post⟩
        = .ok [.readLog, .httpPost]) := by
  refine ⟨rfl, rfl, fun post => ?_⟩
  cases post <;> rfl

/-- **C4** (code defect): `subprocess.Popen` is outside any `try`, so a
spawn failure propagates out of `video_recorder_loop` — the loop neither
pauses nor retries: the second (healthy) iteration below is never
reached. -/
theorem spec_C4_spawn_failure_kills_recorder :
    video_recorder_loop 5
      [⟨.error .fileNotFound, fun _ => true, fun _ => false⟩,
       ⟨.ok (), fun _ => false, fun _ => false⟩]
      = .error .fileNotFound :=
  rfl

/-- **C5** (amended): `display_dashboard` returns exactly the lines whose
leading timestamp parses and is at least `now - 7 days` — there is no upper
bound at `now`, so future-stamped lines are returned as well — in original
file order (each line stripped for printing), and a missing file yields an
empty result. -/
theorem spec_C5_query_characterization :
    (∀ now : Nat, display_dashboard now none = []) ∧
    (∀ now : Nat, ∀ lines : List String,
      display_dashboard now (some lines)
        = (lines.filter (keepsLine (now - 7 * 24 * 3600))).map pyStrip) :=
  ⟨fun _ => rfl, fun now lines => scan_eq_filter (now - 7 * 24 * 3600) lines⟩

/-- **C5** counterexample to the claim as stated: with `now` at
2026-10-12 00:00:00, a line stamped 9999-01-01 00:00:00 lies outside
`[now - 7 days, now]`, yet the dashboard query returns it, because the code
checks only the lower bound `log_time >= seven_days_ago`. -/
theorem spec_C5_future_timestamp_returned :
    display_dashboard (dtToSecs ⟨2026, 10, 12, 0, 0, 0⟩)
        (some ["[9999-01-01 00:00:00] Action Logged: future\n"])
      = ["[9999-01-01 00:00:00] Action Logged: future"] ∧
    parse_leading_timestamp "[9999-01-01 00:00:00] Action Logged: future\n"
      = some (dtToSecs ⟨9999, 1, 1, 0, 0, 0⟩) ∧
    dtToSecs ⟨2026, 10, 12, 0, 0, 0⟩ < dtToSecs ⟨9999, 1, 1, 0, 0, 0⟩ := by
  exact ⟨rfl, rfl, by decide⟩

/-- **C6**: an event triggers a dispatch exactly when it is a key-type
event whose code is mapped and whose key state is the down edge, and the
number of records appended to the action log over any event sequence equals
the number of non-control mapped presses. -/
theorem spec_C6_append_count :
    (∀ e : InputEvent,
      (eventActionOf e).isSome
        = (e.typ == EV_KEY && (buttonLookup e.code).isSome && e.value == KEY_DOWN)) ∧
    (∀ evs : List InputEvent,
      appendedRecordCount evs = evs.countP isNonControlMappedPressSpec) := by
  refine ⟨eventAction_isSome, fun evs => ?_⟩
  unfold appendedRecordCount
  induction evs with
  | nil => rfl
  | cons e evs ih => simp [List.countP_cons, ih, isAppend_eq_spec]

/-- **C7**: the runtime `BUTTON_MAPPINGS` dict has exactly one entry for
code 0 and it maps to `"clear_log_history"` (the duplicate-key literal
keeps the last binding), so no event ever dispatches the dashboard display,
and a down-press of code 0 clears the log. -/
theorem spec_C7_code_zero_clears :
    BUTTON_MAPPINGS.countP (fun p => p.1 == 0) = 1 ∧
    buttonLookup 0 = some "clear_log_history" ∧
    (∀ e : InputEvent, isDashboardAction (eventActionOf e) = false) ∧
    eventActionOf ⟨EV_KEY, 0, KEY_DOWN⟩ = some .clearLog := by
  refine ⟨by decide, by decide, ?_, by decide⟩
  intro e
  unfold eventActionOf
  cases hbl : buttonLookup e.code with
  | none => cases ht : (e.typ == EV_KEY) <;> simp [isDashboardAction]
  | some l =>
    have hl := buttonLookup_not_dashboard e.code l hbl
    cases ht : (e.typ == EV_KEY) <;> cases hv : (e.value == KEY_DOWN) <;>
      simp_all [isDashboardAction] <;> split_ifs <;> simp_all [isDashboardAction]

/-- **C8** (amended): both background loops re-check the shutdown signal
between bounded sleep increments — but the uploader's increment is 10
seconds (60 × `time.sleep(10)` per 10-minute interval), not ~1 second;
only the video poll loop sleeps in 1-second increments.  Once the signal
reads true no further sleep call is executed, so shutdown latency is
bounded by one increment, not by the full interval. -/
theorem spec_C8_sleep_chopping :
    (∀ stop : Nat → Bool,
      (uploaderSleepCalls stop).all (fun d => d == uploaderSleepChunkSeconds) = true) ∧
    (∀ stop : Nat → Bool, ∀ j, stop j = true → (uploaderSleepCalls stop).length ≤ j) ∧
    (∀ r s : Nat → Bool, ∀ f i,
      (video_wait_for_proc r s i f).all videoSleepOpOk = true) := by
  refine ⟨fun stop => uploaderSleepCallsAux_all_ten stop _ _, fun stop j hj => ?_,
    fun r s => video_wait_sleep_granularity r s⟩
  have h := uploaderSleepCallsAux_len stop j hj uploaderSleepChunkCount 0 (Nat.zero_le j)
  simpa [uploaderSleepCalls] using h

/-- **C8** witness: the theorem applied at a concrete signal that is
already set at the first check. -/
theorem spec_C8_sleep_chopping_witness :
    (uploaderSleepCalls (fun _ => true)).length ≤ 0 :=
  spec_C8_sleep_chopping.2.1 (fun _ => true) 0 rfl

/-- **C8** counterexample to the claim as stated: a full uploader wait is
sixty sleep calls of 10 seconds each — no sleep call of the claimed ~1
second granularity occurs. -/
theorem spec_C8_uploader_chunk_is_ten_seconds :
    uploaderSleepCalls (fun _ => false) = List.replicate 60 10 ∧
    (uploaderSleepCalls (fun _ => false)).all (fun d => d == 1) = false := by
  exact ⟨by decide, by decide⟩

/-- **C9**: `clear_action_log` deletes the backing file when it exists, is
a no-op (no `os.remove`, no error) when it is absent, and a query
immediately after any clear returns an empty result. -/
theorem spec_C9_clear :
    (∀ ls : List String, clear_action_log (some ls) = (none, true)) ∧
    clear_action_log none = (none, false) ∧
    (∀ now : Nat, ∀ st : Option (List String),
      display_dashboard now (clear_action_log st).1 = []) := by
  refine ⟨fun ls => rfl, rfl, fun now st => ?_⟩
  cases st <;> rfl

/-- **C10**: when connectivity is reported absent or the log file does not
exist, the uploader cycle is skipped entirely — the effect list is empty
(no log read, no network call) and no exception escapes. -/
theorem spec_C10_skip_cycle (env : UploadEnv)
    (h : is_wifi_connected env.operstate = false ∨ env.logExists = false) :
    upload_logs_to_datadog env = .ok [] := by
  unfold upload_logs_to_datadog
  rcases h with h | h
  · simp [h]
  · by_cases hw : is_wifi_connected env.operstate = true <;> simp [h, hw]

/-- **C10** witness: a concrete cycle with the operstate file absent
(connectivity reported down). -/
theorem spec_C10_skip_cycle_witness :
    upload_logs_to_datadog ⟨none, true, Except.ok "", Except.ok 200⟩ = .ok [] :=
  spec_C10_skip_cycle ⟨none, true, Except.ok "", Except.ok 200⟩ (Or.inl rfl)

end RobotLogger
